import Mathlib

/-!
A shallow embedding of `src/git_to_zip.py` (a tool that packages the files
changed between two git revisions into a versioned, timestamped zip archive)
and proofs about it.

Modelling conventions:
* Each external effect (git subprocess, filesystem, clock) is a field of an
  `Env` record.  A `check_output` call that can raise `CalledProcessError`
  is modelled as `Except String …`, the error string standing for the
  underlying error detail carried by the exception.
* Python `float` version numbers are modelled as exact decimal fractions
  (`PyDec`, valued in `ℚ` by `PyDec.toRat`); every value the claims evaluate
  is an exact decimal, where the binary rounding of IEEE doubles cannot
  affect the one-decimal formatting.
* Python strings are Lean `String`s; slicing `s[:n]` is `strTake`, and the
  string helpers (`splitlines`, `strip`, `replace`) are re-implemented on
  the character list so that concrete runs reduce by `decide`/`rfl`.
* The zip archive is modelled as the association list of (entry name, entry
  bytes) produced by the sequence of `zipf.write` calls; deflate compression
  is lossless, so round-trip content questions are questions about this list.
-/

/-- Python `str.splitlines` restricted to `\n` separators (the only separator
git produces here): split on newlines, with no trailing empty line. -/
def splitLinesAux : List Char → List Char → List (List Char)
  | cur, [] => [cur.reverse]
  | cur, c :: cs =>
    if c = '\n' then cur.reverse :: splitLinesAux [] cs
    else splitLinesAux (c :: cur) cs

/-- `"a\nb\n".splitlines() = ["a","b"]`, `"".splitlines() = []`. -/
def pySplitlines (s : String) : List String :=
  let ls := splitLinesAux [] s.data
  let ls := if ls.getLast? = some [] then ls.dropLast else ls
  ls.map String.mk

/-- Whitespace characters removed by Python `str.strip()`. -/
def isPySpace (c : Char) : Bool :=
  c = ' ' || c = '\n' || c = '\t' || c = '\r' || c = '\x0b' || c = '\x0c'

/-- Python `str.strip()`. -/
def pyStrip (s : String) : String :=
  String.mk (((s.data.dropWhile isPySpace).reverse.dropWhile isPySpace).reverse)

/-- `str.replace("\n", " |")` on the character list. -/
def replaceNlSep : List Char → List Char
  | [] => []
  | c :: cs => if c = '\n' then ' ' :: '|' :: replaceNlSep cs else c :: replaceNlSep cs

/-- Python slicing `s[:n]` (by code points, as Python slices by characters). -/
def strTake (s : String) (n : Nat) : String :=
  String.mk (s.data.take n)

/-- The external world of one run: results of the four git queries, the
filesystem and the clock.
* `revParseRaw` — `git rev-parse --show-toplevel`
* `diffRaw b h` — `git diff --name-only --diff-filter=d b..h` (raw stdout)
* `describeRaw` — `git describe --abbrev=0 --tags`
* `logRaw b h` — `git log b..h --pretty=%s` (raw stdout)
* `isfile p` — `os.path.isfile(p)` relative to the project root
* `listdir d` — `os.listdir(d)`
* `readFile p` — the bytes of file `p` on disk (`none` if unreadable)
* `today` — `datetime.now().strftime('%Y%m%d')` -/
structure Env where
  revParseRaw : Except String String
  diffRaw : String → String → Except String String
  describeRaw : Except String String
  logRaw : String → String → Except String String
  isfile : String → Bool
  listdir : String → List String
  readFile : String → Option (List Nat)
  today : String

/-- `get_changed_files` (src lines 17-25): the name-only diff split into
lines and filtered to paths that exist as regular files; a
`CalledProcessError` from git propagates (the caller exits). -/
def get_changed_files (env : Env) (base_ref head_ref : String) :
    Except String (List String) :=
  match env.diffRaw base_ref head_ref with
  | .error e => .error e
  | .ok out => .ok ((pySplitlines out).filter env.isfile)

/-- `get_latest_tag` (src lines 27-31): the stripped `git describe` output,
or `None` when the command fails. -/
def get_latest_tag (env : Env) : Option String :=
  match env.describeRaw with
  | .ok s => some (pyStrip s)
  | .error _ => none

/-- `get_commit_message` (src lines 33-38): the stripped `git log --pretty=%s`
output with newlines replaced by `" |"`; a `CalledProcessError` is swallowed
and the function returns the empty string. -/
def get_commit_message (env : Env) (base_ref head_ref : String) : String :=
  match env.logRaw base_ref head_ref with
  | .ok s => String.mk (replaceNlSep (pyStrip s).data)
  | .error _ => ""

/-- The character class `[a-zA-Z0-9_\-]` of `sanitize_filename`. -/
def allowedChar (c : Char) : Bool :=
  ('a' ≤ c && c ≤ 'z') || ('A' ≤ c && c ≤ 'Z') || ('0' ≤ c && c ≤ '9') ||
    c = '_' || c = '-'

/-- `sanitize_filename` (src lines 40-41): replace spaces with underscores,
then delete every character outside `[a-zA-Z0-9_\-]`. -/
def sanitize_filename (name : String) : String :=
  String.mk (((name.data.map fun c => if c = ' ' then '_' else c).filter allowedChar))

/-- Consume a maximal run of ASCII digits. -/
def takeDigits : List Char → List Char × List Char
  | [] => ([], [])
  | c :: cs =>
    if c.isDigit then
      let (d, r) := takeDigits cs
      (c :: d, r)
    else ([], c :: cs)

/-- Value of a digit string. -/
def digitsToNat (l : List Char) : Nat :=
  l.foldl (fun a c => a * 10 + (c.toNat - '0'.toNat)) 0

/-- Match a literal character sequence at the front, returning the rest. -/
def stripLit : List Char → List Char → Option (List Char)
  | [], cs => some cs
  | _ :: _, [] => none
  | p :: ps, c :: cs => if c = p then stripLit ps cs else none

/-- A nonnegative decimal number `num / 10 ^ tenPow`, the exact value of the
Python floats this program handles (parsed `\d+.\d+` literals and sums of
`0.1`); kept unreduced so that all arithmetic is `Nat` arithmetic. -/
structure PyDec where
  num : Nat
  tenPow : Nat
deriving DecidableEq

/-- The denominator `10 ^ tenPow`. -/
def PyDec.den (x : PyDec) : Nat := 10 ^ x.tenPow

/-- The rational value of a `PyDec`, used in specifications. -/
def PyDec.toRat (x : PyDec) : ℚ := (x.num : ℚ) / (10 : ℚ) ^ x.tenPow

/-- Strict order on values (cross multiplication; denominators positive). -/
def PyDec.lt (x y : PyDec) : Bool := x.num * y.den < y.num * x.den

/-- Python `max(a, b)`: keep `a` unless `b` is strictly greater. -/
def PyDec.pyMax (x y : PyDec) : PyDec := if PyDec.lt x y then y else x

/-- `v + 0.1`. -/
def PyDec.addTenth (x : PyDec) : PyDec := ⟨x.num * 10 + x.den, x.tenPow + 1⟩

/-- The anchored regex `update_(\d+\.\d+)` of `get_next_version` applied to a
directory entry: the literal prefix, a digit run, a dot, a digit run; the
captured group `d1.d2` is `float`-parsed to the exact decimal
`(d1 * 10 ^ len + d2) / 10 ^ len`. -/
def parseVersion (f : String) : Option PyDec :=
  match stripLit "update_".data f.data with
  | none => none
  | some rest =>
    let (d1, r1) := takeDigits rest
    if d1 = [] then none
    else
      match r1 with
      | '.' :: r2 =>
        let (d2, _) := takeDigits r2
        if d2 = [] then none
        else some ⟨digitsToNat d1 * 10 ^ d2.length + digitsToNat d2, d2.length⟩
      | _ => none

/-- `get_next_version` (src lines 43-50) on the listing of the output
directory: collect the versions embedded in matching entry names and return
`max(versions) + 0.1`, or `0.1` when nothing matched (Python `max` on a
nonempty list keeps the first element and replaces it whenever a strictly
larger one appears). -/
def get_next_version (listing : List String) : PyDec :=
  match listing.filterMap parseVersion with
  | [] => ⟨1, 1⟩
  | v :: vs => PyDec.addTenth (vs.foldl PyDec.pyMax v)

/-- Python `f"{version:.1f}"` for the nonnegative exact decimals arising
here: round to the nearest tenth (`n = floor(10 * v + 1/2)`, computed as a
`Nat` division) and print one fractional digit. -/
def formatVersion (x : PyDec) : String :=
  let n : Nat := (20 * x.num + x.den) / (2 * x.den)
  toString (n / 10) ++ "." ++ toString (n % 10)

/-- The sequence of `zipf.write(file)` calls: each appends an entry whose
name is the file's relative path and whose bytes are the file's content. -/
def zipWriteAll (readFile : String → Option (List Nat)) (files : List String) :
    List (String × Option (List Nat)) :=
  files.foldl (fun acc f => acc ++ [(f, readFile f)]) []

/-- `create_update_zip` (src lines 52-61): sanitize the first 20 characters
of the message, compose `update_<version>_<date>_<msg>.zip` inside the output
directory, and write every file; returns the zip path and the entry list. -/
def create_update_zip (readFile : String → Option (List Nat))
    (files : List String) (output_dir : String) (version : PyDec)
    (message : String) (today : String) :
    String × List (String × Option (List Nat)) :=
  let sanitized_msg := sanitize_filename (strTake message 20)
  let zip_name :=
    "update_" ++ formatVersion version ++ "_" ++ today ++ "_" ++ sanitized_msg ++ ".zip"
  let zip_path := output_dir ++ "/" ++ zip_name
  (zip_path, zipWriteAll readFile files)

/-- Python `a or b` for an optional string `a` (`None` and `""` are falsy). -/
def orElseStr (a : Option String) (b : String) : String :=
  match a with
  | none => b
  | some s => if s = "" then b else s

/-- Python `a or b` for strings (`""` is falsy). -/
def pyOrS (a b : String) : String :=
  if a = "" then b else a

/-- Line 74: `base_ref = args.base or get_latest_tag() or 'HEAD~1'`. -/
def resolved_base (env : Env) (baseArg : Option String) : String :=
  orElseStr baseArg (orElseStr (get_latest_tag env) "HEAD~1")

/-- Line 85: `commit_message = get_commit_message(...) or f"{base}_to_{head}"`
(the brace-interpolation written out as concatenation). -/
def resolvedMessage (env : Env) (base_ref head_ref : String) : String :=
  pyOrS (get_commit_message env base_ref head_ref)
    (base_ref ++ "_to_" ++ head_ref)

/-- Observable outcome of one `main()` run.
* `exitCode` — the process exit status.
* `madeOutputDir` — whether execution reached the
  `os.makedirs(args.output, exist_ok=True)` call (line 77), i.e. whether the
  output directory exists on disk afterwards even if absent before.
* `archive` — the zip file written, as (path, entries), or `none`.
* `stdout` — the printed lines, in order (the final size report, a pure
  I/O readback of the compressed file, is not modelled). -/
structure RunResult where
  exitCode : Nat
  madeOutputDir : Bool
  archive : Option (String × List (String × Option (List Nat)))
  stdout : List String

/-- `main` after the diff succeeded (src lines 79-93): short-circuit on an
empty change set, otherwise allocate the version, aggregate the message and
build the archive. -/
def afterDiff (env : Env) (outputArg base_ref head_ref : String)
    (changed_files : List String) : RunResult :=
  if changed_files = [] then
    ⟨0, true, none,
      ["No changed files found between " ++ base_ref ++ " and " ++ head_ref]⟩
  else
    ⟨0, true,
      some (create_update_zip env.readFile changed_files outputArg
        (get_next_version (env.listdir outputArg))
        (resolvedMessage env base_ref head_ref) env.today),
      ["Creating update package v" ++
         formatVersion (get_next_version (env.listdir outputArg)),
       "Changes from " ++ base_ref ++ " to " ++ head_ref,
       "Files count: " ++ toString changed_files.length] ++
      changed_files.map (fun f => "Added: " ++ f) ++
      ["Update package created: " ++
         (create_update_zip env.readFile changed_files outputArg
           (get_next_version (env.listdir outputArg))
           (resolvedMessage env base_ref head_ref) env.today).1]⟩

/-- `main` once the repository root is known (src lines 74-93): resolve base
and head, create the output directory, extract the change set (exiting 1 on a
diff error), and continue. -/
def afterRoot (env : Env) (baseArg : Option String)
    (headArg outputArg : String) : RunResult :=
  match get_changed_files env (resolved_base env baseArg) headArg with
  | .error e => ⟨1, true, none, ["Error running git diff: " ++ e]⟩
  | .ok changed_files =>
    afterDiff env outputArg (resolved_base env baseArg) headArg changed_files

/-- `main` (src lines 63-93).  `baseArg`, `headArg`, `outputArg` are the CLI
arguments `--base` (default `None`), `--head` (default `"HEAD"`), `--output`
(default `"updates"`).  A failing `git rev-parse --show-toplevel` exits 1
before anything else. -/
def runMain (env : Env) (baseArg : Option String)
    (headArg outputArg : String) : RunResult :=
  match env.revParseRaw with
  | .error _ => ⟨1, false, none, ["Error: Not a Git repository"]⟩
  | .ok _ => afterRoot env baseArg headArg outputArg

/-- Modelled from the spec: "the revision immediately preceding head (i.e.,
head's parent)".  The code never forms this reference; in VCS revision
syntax the first parent of a ref `h` is written `h ++ "~1"`. -/
def parentRef (h : String) : String := h ++ "~1"

/-- First entry of a zip entry list with the given name, if any. -/
def lookupEntry (k : String) : List (String × Option (List Nat)) → Option (Option (List Nat))
  | [] => none
  | (k2, v) :: rest => if k2 = k then some v else lookupEntry k rest

/-- The rational values of the versions embedded in the artifact names of a
directory listing. -/
def versionsOf (listing : List String) : List ℚ :=
  (listing.filterMap parseVersion).map PyDec.toRat

/-- A world where every query succeeds: one changed file `f.py`, latest tag
`v1.0`, one commit subject, an empty output directory, date 2024-03-15. -/
def envAllOk : Env :=
  { revParseRaw := .ok "/repo"
    diffRaw := fun _ _ => .ok "f.py\n"
    describeRaw := .ok "v1.0\n"
    logRaw := fun _ _ => .ok "Fix stuff\n"
    isfile := fun _ => true
    listdir := fun _ => []
    readFile := fun _ => some [7, 7]
    today := "20240315" }

/-- `git rev-parse --show-toplevel` fails: not inside a repository. -/
def envRootErr : Env := { envAllOk with revParseRaw := .error "exit 128" }

/-- `git diff` fails (e.g. a bad revision). -/
def envDiffErr : Env :=
  { envAllOk with diffRaw := fun _ _ => .error "fatal: bad revision" }

/-- `git log` fails while everything else succeeds, and no tag exists. -/
def envLogErr : Env :=
  { envAllOk with
      logRaw := fun _ _ => .error "fatal: bad revision"
      describeRaw := .error "fatal: no names found" }

/-- The diff is empty: nothing changed between base and head. -/
def envNoChanges : Env := { envAllOk with diffRaw := fun _ _ => .ok "" }

/-- No tag reachable: `git describe` fails. -/
def envNoTag : Env := { envAllOk with describeRaw := .error "fatal: no names found" }

/-- The world of concrete scenario A: empty output directory, commit subject
`Fix bug in parser`, no tag, local date 2024-03-15. -/
def envC6 : Env :=
  { envAllOk with
      logRaw := fun _ _ => .ok "Fix bug in parser\n"
      describeRaw := .error "fatal: no names found"
      readFile := fun _ => some [1, 2, 3] }

/-- The world of concrete scenario C: base and head identical, so the log of
`base..head` is empty. -/
def envEmptyLog : Env := { envAllOk with logRaw := fun _ _ => .ok "" }

/-! ### Helper lemmas -/

theorem PyDec.toRat_addTenth (x : PyDec) : (PyDec.addTenth x).toRat = x.toRat + 1/10 := by
  unfold PyDec.addTenth PyDec.toRat PyDec.den
  have h10 : ((10 : ℚ) ^ x.tenPow) ≠ 0 := by positivity
  push_cast
  rw [pow_succ, div_add_div _ _ h10 (by norm_num : (10 : ℚ) ≠ 0)]
  rw [div_eq_div_iff (by positivity) (by positivity)]
  ring

theorem PyDec.lt_iff (x y : PyDec) : PyDec.lt x y = true ↔ x.toRat < y.toRat := by
  unfold PyDec.lt PyDec.toRat PyDec.den
  rw [decide_eq_true_eq]
  rw [div_lt_div_iff₀ (by positivity) (by positivity)]
  constructor
  · intro h
    exact_mod_cast h
  · intro h
    exact_mod_cast h

theorem PyDec.toRat_pyMax (x y : PyDec) :
    (PyDec.pyMax x y).toRat = max x.toRat y.toRat := by
  unfold PyDec.pyMax
  by_cases h : PyDec.lt x y = true
  · rw [if_pos h, max_eq_right (le_of_lt ((PyDec.lt_iff x y).mp h))]
  · rw [if_neg h, max_eq_left]
    by_contra hc
    push_neg at hc
    exact h ((PyDec.lt_iff x y).mpr hc)

theorem foldl_pyMax_toRat (vs : List PyDec) (v : PyDec) :
    (vs.foldl PyDec.pyMax v).toRat = (vs.map PyDec.toRat).foldl max v.toRat := by
  induction vs generalizing v with
  | nil => rfl
  | cons y ys ih =>
    simp only [List.foldl_cons, List.map_cons]
    rw [ih, PyDec.toRat_pyMax]

theorem le_foldl_max (l : List ℚ) (a b : ℚ) (h : b ≤ a) : b ≤ l.foldl max a := by
  induction l generalizing a with
  | nil => simpa using h
  | cons x xs ih => exact ih (max a x) (le_trans h (le_max_left a x))

theorem mem_le_foldl_max (l : List ℚ) (a x : ℚ) (hx : x ∈ l) : x ≤ l.foldl max a := by
  induction l generalizing a with
  | nil => cases hx
  | cons y ys ih =>
    rcases List.mem_cons.mp hx with h | h
    · subst h
      exact le_foldl_max ys (max a x) x (le_max_right a x)
    · exact ih (max a y) h

theorem foldl_max_le (l : List ℚ) (a m : ℚ) (ha : a ≤ m) (h : ∀ x ∈ l, x ≤ m) :
    l.foldl max a ≤ m := by
  induction l generalizing a with
  | nil => simpa using ha
  | cons y ys ih =>
    exact ih (max a y) (max_le ha (h y (List.mem_cons_self y ys)))
      fun x hx => h x (List.mem_cons_of_mem y hx)

theorem foldl_max_determined (l : List ℚ) (a m : ℚ)
    (hm : m = a ∨ m ∈ l) (hub : a ≤ m) (hub2 : ∀ x ∈ l, x ≤ m) :
    l.foldl max a = m := by
  apply le_antisymm (foldl_max_le l a m hub hub2)
  rcases hm with rfl | h
  · exact le_foldl_max l m m le_rfl
  · exact mem_le_foldl_max l a m h

theorem zipWriteAll_aux (g : String → Option (List Nat)) (files : List String)
    (acc : List (String × Option (List Nat))) :
    files.foldl (fun a f => a ++ [(f, g f)]) acc = acc ++ files.map fun f => (f, g f) := by
  induction files generalizing acc with
  | nil => simp
  | cons f fs ih => simp [ih]

theorem zipWriteAll_eq_map (g : String → Option (List Nat)) (files : List String) :
    zipWriteAll g files = files.map fun f => (f, g f) := by
  unfold zipWriteAll
  simpa using zipWriteAll_aux g files []

theorem lookupEntry_map (g : String → Option (List Nat)) (files : List String)
    (f : String) (hf : f ∈ files) :
    lookupEntry f (files.map fun x => (x, g x)) = some (g f) := by
  induction files with
  | nil => cases hf
  | cons y ys ih =>
    rcases List.mem_cons.mp hf with h | h
    · subst h
      simp [lookupEntry]
    · by_cases hy : y = f
      · subst hy
        simp [lookupEntry]
      · simp only [List.map_cons, lookupEntry, if_neg hy]
        exact ih h

theorem sanitize_keeps_allowed (cs : List Char) (h : ∀ c ∈ cs, allowedChar c = true) :
    (cs.map fun c => if c = ' ' then '_' else c).filter allowedChar = cs := by
  induction cs with
  | nil => rfl
  | cons c cs ih =>
    have hc : allowedChar c = true := h c (List.mem_cons_self c cs)
    have hsp : c ≠ ' ' := by
      intro e
      rw [e] at hc
      simp [allowedChar] at hc
    simp only [List.map_cons, if_neg hsp, List.filter_cons, hc, if_pos]
    rw [ih fun x hx => h x (List.mem_cons_of_mem c hx)]


theorem runMain_ok (env : Env) (baseArg : Option String) (headArg outputArg r : String)
    (hroot : env.revParseRaw = .ok r) :
    runMain env baseArg headArg outputArg = afterRoot env baseArg headArg outputArg := by
  unfold runMain
  rw [hroot]

theorem afterRoot_ok (env : Env) (baseArg : Option String) (headArg outputArg : String)
    (files : List String)
    (hd : get_changed_files env (resolved_base env baseArg) headArg = .ok files) :
    afterRoot env baseArg headArg outputArg =
      afterDiff env outputArg (resolved_base env baseArg) headArg files := by
  unfold afterRoot
  rw [hd]

theorem afterDiff_empty (env : Env) (outputArg base_ref head_ref : String) :
    afterDiff env outputArg base_ref head_ref [] =
      ⟨0, true, none,
        ["No changed files found between " ++ base_ref ++ " and " ++ head_ref]⟩ := by
  unfold afterDiff
  rfl

theorem afterDiff_nonempty (env : Env) (outputArg base_ref head_ref : String)
    (files : List String) (hne : files ≠ []) :
    afterDiff env outputArg base_ref head_ref files =
      ⟨0, true,
        some (create_update_zip env.readFile files outputArg
          (get_next_version (env.listdir outputArg))
          (resolvedMessage env base_ref head_ref) env.today),
        ["Creating update package v" ++
           formatVersion (get_next_version (env.listdir outputArg)),
         "Changes from " ++ base_ref ++ " to " ++ head_ref,
         "Files count: " ++ toString files.length] ++
        files.map (fun f => "Added: " ++ f) ++
        ["Update package created: " ++
           (create_update_zip env.readFile files outputArg
             (get_next_version (env.listdir outputArg))
             (resolvedMessage env base_ref head_ref) env.today).1]⟩ := by
  unfold afterDiff
  rw [if_neg hne]

/-! ### Claims -/

/-- C1 (as stated, refuted): a failing commit-subject query is claimed to be
fatal, but in `envLogErr` the `git log` query fails and the run still exits 0
and produces an archive — `get_commit_message` swallows the error. -/
theorem C1_counterexample :
    (runMain envLogErr none "HEAD" "updates").exitCode = 0 ∧
    (runMain envLogErr none "HEAD" "updates").archive.isSome = true := by
  decide

/-- C1 (amended): failures of the project-root query and of the change-set
diff query are fatal with a diagnostic (the diff diagnostic carrying the
underlying error detail), but a failure of the Message Aggregator's
commit-subject query is swallowed: `get_commit_message` returns the empty
string and the run proceeds. -/
theorem C1_query_failures (env : Env) (baseArg : Option String)
    (headArg outputArg b h : String) :
    (∀ e, env.revParseRaw = .error e →
      (runMain env baseArg headArg outputArg).exitCode = 1 ∧
      "Error: Not a Git repository" ∈ (runMain env baseArg headArg outputArg).stdout) ∧
    (∀ r e, env.revParseRaw = .ok r →
      env.diffRaw (resolved_base env baseArg) headArg = .error e →
      (runMain env baseArg headArg outputArg).exitCode = 1 ∧
      ("Error running git diff: " ++ e) ∈ (runMain env baseArg headArg outputArg).stdout) ∧
    (∀ e, env.logRaw b h = .error e → get_commit_message env b h = "") := by
  refine ⟨?_, ?_, ?_⟩
  · intro e he
    unfold runMain
    rw [he]
    exact ⟨rfl, List.mem_singleton.mpr rfl⟩
  · intro r e hr hd
    unfold runMain
    rw [hr]
    unfold afterRoot get_changed_files
    rw [hd]
    exact ⟨rfl, List.mem_singleton.mpr rfl⟩
  · intro e he
    unfold get_commit_message
    rw [he]

/-- C1 witness: the three amended facts at concrete worlds. -/
theorem C1_witness :
    (runMain envRootErr none "HEAD" "updates").exitCode = 1 ∧
    (runMain envDiffErr none "HEAD" "updates").exitCode = 1 ∧
    get_commit_message envLogErr "HEAD~1" "HEAD" = "" :=
  ⟨((C1_query_failures envRootErr none "HEAD" "updates" "a" "b").1 "exit 128" rfl).1,
   ((C1_query_failures envDiffErr none "HEAD" "updates" "a" "b").2.1
      "/repo" "fatal: bad revision" rfl rfl).1,
   (C1_query_failures envLogErr none "HEAD" "updates" "HEAD~1" "HEAD").2.2
      "fatal: bad revision" rfl⟩

/-- C2 (as stated, refuted): with no base supplied and no tag, the resolved
base is claimed to be head's parent for every head; for head `"feature"` the
code resolves the base to the fixed reference `HEAD~1`, not `feature~1`. -/
theorem C2_counterexample : resolved_base envNoTag none ≠ parentRef "feature" := by
  decide

/-- C2 (amended): with no base supplied, the resolved base is the most recent
tag when one exists (and is nonempty); otherwise it is the fixed reference
`HEAD~1` — the parent of the current checkout position `HEAD`, which
coincides with head's parent only for the default head `HEAD`. -/
theorem C2_base_resolution (env : Env) (t : String) :
    (get_latest_tag env = some t → t ≠ "" → resolved_base env none = t) ∧
    (get_latest_tag env = none →
      resolved_base env none = "HEAD~1" ∧ resolved_base env none = parentRef "HEAD") := by
  constructor
  · intro ht hne
    unfold resolved_base orElseStr
    rw [ht]
    simp [hne]
  · intro ht
    unfold resolved_base orElseStr
    rw [ht]
    exact ⟨rfl, rfl⟩

/-- C2 witness: tag present resolves to the tag; no tag resolves to HEAD~1. -/
theorem C2_witness :
    resolved_base envAllOk none = "v1.0" ∧ resolved_base envNoTag none = "HEAD~1" :=
  ⟨(C2_base_resolution envAllOk "v1.0").1 (by decide) (by decide),
   ((C2_base_resolution envNoTag "").2 (by decide)).1⟩

/-- C3: the next version is the maximum version embedded in the artifact
names of the output directory plus 0.1 (unrelated entries contribute
nothing, since they fail the pattern and are dropped from the fold), 0.1
when nothing matches, and 1.4 in concrete scenario B. -/
theorem C3_next_version (l : List String) (m : ℚ) :
    (m ∈ versionsOf l → (∀ v ∈ versionsOf l, v ≤ m) →
      (get_next_version l).toRat = m + 1/10) ∧
    (l.filterMap parseVersion = [] → (get_next_version l).toRat = 1/10) ∧
    (get_next_version
      ["update_1.3_20240101_x.zip", "update_0.9_20240102_y.zip"]).toRat = 7/5 := by
  refine ⟨?_, ?_, ?_⟩
  · intro hm hub
    unfold versionsOf at hm hub
    unfold get_next_version
    rcases hfm : l.filterMap parseVersion with _ | ⟨v, vs⟩
    · rw [hfm] at hm
      cases hm
    · rw [hfm] at hm hub
      rw [PyDec.toRat_addTenth, foldl_pyMax_toRat]
      have hmem : m = v.toRat ∨ m ∈ vs.map PyDec.toRat := by
        simpa using hm
      have h1 : v.toRat ≤ m := hub v.toRat (by simp)
      have h2 : ∀ x ∈ vs.map PyDec.toRat, x ≤ m := by
        intro x hx
        exact hub x (by simp [hx])
      rw [foldl_max_determined (vs.map PyDec.toRat) v.toRat m hmem h1 h2]
  · intro hfm
    unfold get_next_version
    rw [hfm]
    norm_num [PyDec.toRat]
  · have h140 : get_next_version
        ["update_1.3_20240101_x.zip", "update_0.9_20240102_y.zip"] =
        ⟨140, 2⟩ := by decide
    rw [h140]
    norm_num [PyDec.toRat]

/-- C3 witness: in scenario B the value 1.3 is the maximal embedded version
and the allocator answers 1.3 + 0.1. -/
theorem C3_witness :
    (13 : ℚ)/10 ∈ versionsOf ["update_1.3_20240101_x.zip", "update_0.9_20240102_y.zip"] ∧
    (get_next_version
      ["update_1.3_20240101_x.zip", "update_0.9_20240102_y.zip"]).toRat = 13/10 + 1/10 := by
  have hfm : (["update_1.3_20240101_x.zip", "update_0.9_20240102_y.zip"] :
      List String).filterMap parseVersion = [⟨13, 1⟩, ⟨9, 1⟩] := by decide
  have hmem : (13 : ℚ)/10 ∈
      versionsOf ["update_1.3_20240101_x.zip", "update_0.9_20240102_y.zip"] := by
    unfold versionsOf
    rw [hfm]
    norm_num [PyDec.toRat]
  refine ⟨hmem,
    (C3_next_version ["update_1.3_20240101_x.zip", "update_0.9_20240102_y.zip"]
      (13/10)).1 hmem ?_⟩
  unfold versionsOf
  rw [hfm]
  intro v hv
  rcases List.mem_map.mp hv with ⟨x, hx, rfl⟩
  rcases List.mem_cons.mp hx with rfl | hx2
  · norm_num [PyDec.toRat]
  · rcases List.mem_cons.mp hx2 with rfl | hx3
    · norm_num [PyDec.toRat]
    · cases hx3

/-- C4: a successful run with a nonempty change set produces an archive whose
entry names are exactly the change set, in order, and each entry's bytes are
the bytes of that file on disk. -/
theorem C4_archive_roundtrip (env : Env) (baseArg : Option String)
    (headArg outputArg r : String) (files : List String)
    (hroot : env.revParseRaw = .ok r)
    (hdiff : get_changed_files env (resolved_base env baseArg) headArg = .ok files)
    (hne : files ≠ []) :
    ∃ p entries, (runMain env baseArg headArg outputArg).archive = some (p, entries) ∧
      entries.map Prod.fst = files ∧
      ∀ f ∈ files, lookupEntry f entries = some (env.readFile f) := by
  rw [runMain_ok env baseArg headArg outputArg r hroot,
    afterRoot_ok env baseArg headArg outputArg files hdiff,
    afterDiff_nonempty env outputArg (resolved_base env baseArg) headArg files hne]
  refine ⟨_, zipWriteAll env.readFile files, rfl, ?_, ?_⟩
  · rw [zipWriteAll_eq_map]
    simp [Function.comp_def]
  · intro f hf
    rw [zipWriteAll_eq_map]
    exact lookupEntry_map env.readFile files f hf

/-- C4 witness: one changed file `f.py`, read back byte-identical. -/
theorem C4_witness :
    (∃ p entries, (runMain envAllOk none "HEAD" "updates").archive = some (p, entries) ∧
      entries.map Prod.fst = ["f.py"] ∧
      ∀ f ∈ ["f.py"], lookupEntry f entries = some (envAllOk.readFile f)) :=
  C4_archive_roundtrip envAllOk none "HEAD" "updates" "/repo" ["f.py"]
    rfl rfl (by decide)

/-- C5: a run whose extracted change set is empty exits 0, creates no
archive, and reports that no files changed between base and head. -/
theorem C5_empty_changeset (env : Env) (baseArg : Option String)
    (headArg outputArg r : String) (hroot : env.revParseRaw = .ok r)
    (hempty : get_changed_files env (resolved_base env baseArg) headArg = .ok []) :
    (runMain env baseArg headArg outputArg).exitCode = 0 ∧
    (runMain env baseArg headArg outputArg).archive = none ∧
    ("No changed files found between " ++ resolved_base env baseArg ++ " and " ++ headArg)
      ∈ (runMain env baseArg headArg outputArg).stdout := by
  rw [runMain_ok env baseArg headArg outputArg r hroot,
    afterRoot_ok env baseArg headArg outputArg [] hempty, afterDiff_empty]
  exact ⟨rfl, rfl, List.mem_singleton.mpr rfl⟩

/-- C5 witness: in `envNoChanges` the diff is empty and the run is a clean
no-archive exit. -/
theorem C5_witness :
    (runMain envNoChanges none "HEAD" "updates").exitCode = 0 ∧
    (runMain envNoChanges none "HEAD" "updates").archive = none := by
  have h := C5_empty_changeset envNoChanges none "HEAD" "updates" "/repo" rfl rfl
  exact ⟨h.1, h.2.1⟩

/-- C6: concrete scenario A — empty output directory, message
`Fix bug in parser`, local date 2024-03-15: version 0.1 is allocated and the
archive is named `update_0.1_20240315_Fix_bug_in_parser.zip`. -/
theorem C6_scenario_a :
    (runMain envC6 none "HEAD" "updates").archive =
      some ("updates/update_0.1_20240315_Fix_bug_in_parser.zip",
        [("f.py", some [1, 2, 3])]) ∧
    (get_next_version (envC6.listdir "updates")).toRat = 1/10 := by
  constructor
  · decide
  · have h : get_next_version (envC6.listdir "updates") = ⟨1, 1⟩ := by decide
    rw [h]
    norm_num [PyDec.toRat]

/-- C7: sanitization is idempotent on already-sanitized input — on a string
of letters, digits, underscores and hyphens, the builder's
truncate-then-sanitize step returns the 20-character truncation unchanged. -/
theorem C7_sanitize_idempotent (s : String)
    (h : ∀ c ∈ s.data, allowedChar c = true) :
    sanitize_filename (strTake s 20) = strTake s 20 := by
  unfold sanitize_filename strTake
  have hsub : ∀ c ∈ s.data.take 20, allowedChar c = true :=
    fun c hc => h c (List.take_subset 20 s.data hc)
  rw [show (String.mk (s.data.take 20)).data = s.data.take 20 from rfl]
  rw [sanitize_keeps_allowed (s.data.take 20) hsub]

/-- C7 witness: an already-sanitized string passes through unchanged. -/
theorem C7_witness :
    (∀ c ∈ ("Fix_bug-123" : String).data, allowedChar c = true) ∧
    sanitize_filename (strTake "Fix_bug-123" 20) = strTake "Fix_bug-123" 20 :=
  ⟨by decide, C7_sanitize_idempotent "Fix_bug-123" (by decide)⟩

/-- C8: when the aggregated commit-subject summary is empty, the message used
for the artifact name is the synthesized label `<base>_to_<head>`. -/
theorem C8_fallback_label (env : Env) (b h : String)
    (hempty : get_commit_message env b h = "") :
    resolvedMessage env b h = b ++ "_to_" ++ h := by
  unfold resolvedMessage pyOrS
  rw [hempty]
  simp

/-- C8 witness: base and head identical give an empty aggregation and the
synthesized label. -/
theorem C8_witness :
    get_commit_message envEmptyLog "HEAD" "HEAD" = "" ∧
    resolvedMessage envEmptyLog "HEAD" "HEAD" = "HEAD" ++ "_to_" ++ "HEAD" :=
  ⟨by decide, C8_fallback_label envEmptyLog "HEAD" "HEAD" (by decide)⟩

/-- C9: on every run inside a repository the output directory is created
(line 77) before the change-set emptiness check, so even a run that finds no
changed files and produces no archive has made the output directory. -/
theorem C9_outdir_created (env : Env) (baseArg : Option String)
    (headArg outputArg r : String) (hroot : env.revParseRaw = .ok r) :
    (runMain env baseArg headArg outputArg).madeOutputDir = true ∧
    (get_changed_files env (resolved_base env baseArg) headArg = .ok [] →
      (runMain env baseArg headArg outputArg).archive = none ∧
      (runMain env baseArg headArg outputArg).exitCode = 0) := by
  rw [runMain_ok env baseArg headArg outputArg r hroot]
  constructor
  · unfold afterRoot
    split
    · rfl
    · unfold afterDiff
      split
      · rfl
      · rfl
  · intro hd
    rw [afterRoot_ok env baseArg headArg outputArg [] hd, afterDiff_empty]
    exact ⟨rfl, rfl⟩

/-- C9 witness: a no-changes run still reaches the directory creation. -/
theorem C9_witness :
    (runMain envNoChanges none "HEAD" "updates").madeOutputDir = true ∧
    (runMain envNoChanges none "HEAD" "updates").archive = none := by
  have h := C9_outdir_created envNoChanges none "HEAD" "updates" "/repo" rfl
  exact ⟨h.1, (h.2 rfl).1⟩

/-- C10: supplying `--base` as the empty string resolves the base exactly as
when `--base` is omitted (Python `or` treats `""` and `None` alike): the
latest nonempty tag if one exists, otherwise `HEAD~1`. -/
theorem C10_empty_base (env : Env) :
    resolved_base env (some "") = resolved_base env none ∧
    (get_latest_tag env = none → resolved_base env (some "") = "HEAD~1") ∧
    (∀ t, get_latest_tag env = some t → t ≠ "" → resolved_base env (some "") = t) := by
  refine ⟨?_, ?_, ?_⟩
  · unfold resolved_base orElseStr
    simp
  · intro ht
    unfold resolved_base orElseStr
    rw [ht]
    simp
  · intro t ht hne
    unfold resolved_base orElseStr
    rw [ht]
    simp [hne]

/-- C10 witness: with no tag, an empty `--base` resolves to `HEAD~1`, the
same as an omitted `--base`. -/
theorem C10_witness :
    resolved_base envNoTag (some "") = resolved_base envNoTag none ∧
    resolved_base envNoTag (some "") = "HEAD~1" :=
  ⟨(C10_empty_base envNoTag).1, (C10_empty_base envNoTag).2.1 (by decide)⟩
